import Mathlib

/-!
Shallow embedding of `Util/TestingClient/client_example.py` from the CARLA
repository, together with proofs about the episode/frame control-protocol
loop, the control policies, start-spot selection, the measurement display
conversion, and the session-level retry behaviour of `main`.

Python floats are embedded as rationals (`ℚ`); the module-level random
source (`random.uniform`, `random.randint`, `random.choice`) is embedded as
an explicitly injected value, matching the spec's requirement that the
random source be substitutable.
-/

/-- Embedding of the vehicle control command sent by `client.send_control`
(fields as used at lines 107-112 of `client_example.py`: steer, throttle,
brake, hand_brake, reverse). -/
structure ControlCommand where
  steer : ℚ
  throttle : ℚ
  brake : Bool
  hand_brake : Bool
  reverse : Bool
deriving DecidableEq, Repr

/-- Embedding of Python `random.uniform(a, b)`: the injected random value
`u` ranges over `[0, 1]` and the result is `a + (b - a) * u`, which ranges
over `[a, b]`. -/
def uniform (a b u : ℚ) : ℚ := a + (b - a) * u

/-- Embedding of Python `random.randint(a, b)` (both endpoints inclusive,
requires `a ≤ b`): the injected random value `r : ℕ` is reduced modulo the
size of the range. -/
def randint (a b : Int) (r : Nat) : Int := a + (r % (b - a + 1).toNat : Nat)

/-- Embedding of Python `random.choice(l)`: the injected random value is
reduced modulo the length of the list. -/
def choice (l : List Nat) (r : Nat) : Nat := l.getD (r % l.length) 0

/-- Embedding of line 79 of `client_example.py`:
`player_start = random.randint(0, max(0, number_of_player_starts - 1))`.
Total (never raises): the upper endpoint is always `≥ 0 =` lower endpoint. -/
def player_start (number_of_player_starts : Nat) (r : Nat) : Int :=
  randint 0 (max 0 ((number_of_player_starts : Int) - 1)) r

/-- Embedding of the manual control policy (lines 107-112): steer drawn by
`random.uniform(-1.0, 1.0)`, throttle `0.3`, brake, hand_brake and reverse
all false. -/
def manual_control (u : ℚ) : ControlCommand :=
  { steer := uniform (-1) 1 u
    throttle := 3/10
    brake := false
    hand_brake := false
    reverse := false }

/-- Embedding of the autopilot-relay policy (lines 121-123): the bundle's
server-suggested control with `random.uniform(-0.1, 0.1)` added to its
steer field; nothing is clamped. -/
def autopilot_control (c : ControlCommand) (u : ℚ) : ControlCommand :=
  { c with steer := c.steer + uniform (-(1/10)) (1/10) u }

/-- Embedding of a player transform location, coordinates in centimeters. -/
structure Location3 where
  x : ℚ
  y : ℚ
  z : ℚ
deriving DecidableEq, Repr

/-- Embedding of the position part of `print_player_measurements`
(lines 134-136): each coordinate is divided by 100 (cm to m) for display. -/
def player_pos_display (loc : Location3) : ℚ × ℚ × ℚ :=
  (loc.x / 100, loc.y / 100, loc.z / 100)

/-- Embedding of a `Camera` sensor descriptor from `carla.settings` as used
here: constructor name, optional PostProcessing, `set_image_size` pixels,
and `set_position` offset in centimeters. -/
structure Camera where
  name : String
  post_processing : Option String
  image_width : Nat
  image_height : Nat
  pos_x : Int
  pos_y : Int
  pos_z : Int
deriving DecidableEq, Repr

/-- Embedding of the `CarlaSettings` fields set by `client_example.py`
(lines 44-67): SynchronousMode, NumberOfVehicles, NumberOfPedestrians,
WeatherId, the randomized seed pair, and the added cameras in order. -/
structure CarlaSettings where
  SynchronousMode : Bool
  NumberOfVehicles : Nat
  NumberOfPedestrians : Nat
  WeatherId : Nat
  SeedVehicles : Nat
  SeedPedestrians : Nat
  cameras : List Camera
deriving DecidableEq, Repr

/-- Embedding of `camera0` (lines 56-60): `Camera('CameraRGB')`, image size
800x600, position (30, 0, 130). -/
def camera0 : Camera :=
  { name := "CameraRGB"
    post_processing := none
    image_width := 800
    image_height := 600
    pos_x := 30
    pos_y := 0
    pos_z := 130 }

/-- Embedding of `camera1` (lines 64-66): `Camera('CameraDepth',
PostProcessing='Depth')`, image size 800x600, position (30, 0, 130). -/
def camera1 : Camera :=
  { name := "CameraDepth"
    post_processing := some ("Depth")
    image_width := 800
    image_height := 600
    pos_x := 30
    pos_y := 0
    pos_z := 130 }

/-- Embedding of the per-episode settings construction (lines 44-67):
`settings.set(SynchronousMode=True, NumberOfVehicles=30,
NumberOfPedestrians=50, WeatherId=random.choice([1, 3, 7, 8, 14]))`,
`settings.randomize_seeds()`, then `add_camera(camera0)` and
`add_camera(camera1)`. The three injected naturals stand for the weather
draw and the two randomized seeds. -/
def episode_settings (wdraw seedV seedP : Nat) : CarlaSettings :=
  { SynchronousMode := true
    NumberOfVehicles := 30
    NumberOfPedestrians := 50
    WeatherId := choice [1, 3, 7, 8, 14] wdraw
    SeedVehicles := seedV
    SeedPedestrians := seedP
    cameras := [camera0, camera1] }

/-- Embedding of the fact that the settings object is freshly constructed
inside the episode loop (line 44 is inside `for episode in range(0, 3)`):
episode `i` of a run uses the random draws of iteration `i`. -/
def run_episode_configs (draws : Nat → Nat × Nat × Nat) : List CarlaSettings :=
  (List.range 3).map (fun ep =>
    episode_settings (draws ep).1 (draws ep).2.1 (draws ep).2.2)

/-- Observable protocol events of one `run_carla_client` call: the
connection lifecycle of the `with make_carla_client(...)` block and the
four server primitives it issues. -/
inductive ClientEvent where
  | connect
  | requestNewEpisode
  | startEpisode
  | readMeasurements
  | sendControl
  | close
deriving DecidableEq, Repr

/-- Error taxonomy of the spec. Modelled from the spec: the exception
classes themselves live in the `carla` package outside `src/`; only their
interaction with the `except` clauses of `client_example.py` is code under
`src/`. `connectionError` and `protocolError` are the transport/protocol
failures, `contractViolation` an operation invoked out of its required
state sequence, `terminationRequested` the external interrupt
(`KeyboardInterrupt`). -/
inductive ErrKind where
  | connectionError
  | protocolError
  | contractViolation
  | terminationRequested
deriving DecidableEq, Repr

/-- Where a fault is injected into a run: while requesting episode `ep`,
or while reading / sending frame `f` of episode `ep`. -/
inductive FaultAt where
  | atRequest (ep : Nat)
  | atRead (ep f : Nat)
  | atSend (ep f : Nat)
deriving DecidableEq, Repr

/-- Whether the injected fault (if any) fires at location `loc`. -/
def faultHere (fault : Option (FaultAt × ErrKind)) (loc : FaultAt) :
    Option ErrKind :=
  match fault with
  | some (l, e) => if l = loc then some e else none
  | none => none

/-- Embedding of the inner frame loop of `run_carla_client` (lines 87-123):
`for frame in range(0, frames_per_episode)`, each iteration a
`read_measurements` followed by a `send_control`. The first argument of the
recursion is the number of frames left, the second the current frame index
of episode `ep`. A fault injected at a read or send of this episode makes
that call raise instead of completing. -/
def framesRun (fault : Option (FaultAt × ErrKind)) (ep : Nat) :
    Nat → Nat → Except ErrKind Unit × List ClientEvent
  | 0, _ => (.ok (), [])
  | n + 1, f =>
    match faultHere fault (.atRead ep f) with
    | some e => (.error e, [.readMeasurements])
    | none =>
      match faultHere fault (.atSend ep f) with
      | some e => (.error e, [.readMeasurements, .sendControl])
      | none =>
        ((framesRun fault ep n (f + 1)).1,
          .readMeasurements :: .sendControl :: (framesRun fault ep n (f + 1)).2)

/-- Embedding of the episode loop of `run_carla_client` (lines 38-123):
`for episode in range(0, number_of_episodes)`, each iteration a
`request_new_episode`, a `start_episode`, then the frame loop. The first
argument is the number of episodes left, the second the current episode
index. An exception anywhere aborts the loop and propagates. -/
def episodesRun (F : Nat) (fault : Option (FaultAt × ErrKind)) :
    Nat → Nat → Except ErrKind Unit × List ClientEvent
  | 0, _ => (.ok (), [])
  | n + 1, i =>
    match faultHere fault (.atRequest i) with
    | some e => (.error e, [.requestNewEpisode])
    | none =>
      match (framesRun fault i F 0).1 with
      | .error e =>
        (.error e, .requestNewEpisode :: .startEpisode :: (framesRun fault i F 0).2)
      | .ok _ =>
        ((episodesRun F fault n (i + 1)).1,
          .requestNewEpisode :: .startEpisode ::
            ((framesRun fault i F 0).2 ++ (episodesRun F fault n (i + 1)).2))

/-- Embedding of `run_carla_client` (lines 25-126) as the pair of its
outcome (`.ok true` for the `return True` at line 126, or the propagated
exception) and its event trace, for episode count `E` and frame count `F`
with an optional injected fault. Modelled from the spec for the connection
lifecycle: `make_carla_client` (in the `carla` package, outside `src/`) is
a context manager that, per the spec and the comment at lines 30-34,
"makes sure the connection is always cleaned up on exit", so the trace
brackets the episode loop between `connect` and a `close` that happens on
every exit path, normal or exceptional. -/
def run_carla_client (E F : Nat) (fault : Option (FaultAt × ErrKind)) :
    Except ErrKind Bool × List ClientEvent :=
  ((episodesRun F fault E 0).1.map (fun _ => true),
    .connect :: ((episodesRun F fault E 0).2 ++ [.close]))

/-- The event sequence of `n` fault-free frame cycles: a strict alternation
read, send, read, send, ... starting with a read. -/
def readWriteCycles : Nat → List ClientEvent
  | 0 => []
  | n + 1 => .readMeasurements :: .sendControl :: readWriteCycles n

/-- The event sequence of `n` consecutive episode negotiations: request,
start, request, start, ... -/
def negotiationEvents : Nat → List ClientEvent
  | 0 => []
  | n + 1 => .requestNewEpisode :: .startEpisode :: negotiationEvents n

/-- The full event sequence of `n` consecutive fault-free episodes of `F`
frames each: per episode a negotiation pair followed by `F` read/write
cycles. -/
def episodeTraces (F : Nat) : Nat → List ClientEvent
  | 0 => []
  | n + 1 =>
    .requestNewEpisode :: .startEpisode ::
      (readWriteCycles F ++ episodeTraces F n)

/-- Whether an event is a per-frame operation (a read or a write). -/
def isFrameOp : ClientEvent → Bool
  | .readMeasurements => true
  | .sendControl => true
  | _ => false

/-- Whether an event is an episode-negotiation operation. -/
def isNegotiation : ClientEvent → Bool
  | .requestNewEpisode => true
  | .startEpisode => true
  | _ => false

/-- Whether a fault location is actually reached by a fault-free run of `E`
episodes of `F` frames (episodes and frames are 0-indexed). -/
def faultFires (E F : Nat) : FaultAt → Bool
  | .atRequest i => decide (i < E)
  | .atRead i f => decide (i < E) && decide (f < F)
  | .atSend i f => decide (i < E) && decide (f < F)

/-- Embedding of the dynamic test of the `except Exception` clause at line
205 of `client_example.py` against Python's exception hierarchy:
connection, protocol and contract-violation errors are `Exception`
subclasses and are caught; `KeyboardInterrupt` (the external termination
request) derives only `BaseException` and is not caught there. -/
def isExceptionClass : ErrKind → Bool
  | .terminationRequested => false
  | _ => true

/-- Observable events of the orchestrator `main` (lines 192-207): one run
attempt carrying its client-event trace, the `logging.error` call, and the
`time.sleep(1)` backoff. -/
inductive MainEvent where
  | attempt (trace : List ClientEvent)
  | logError (e : ErrKind)
  | sleep (n : Nat)
deriving DecidableEq, Repr

/-- Outcome of the `while True` loop of `main`: a normal `return` after a
successful run, or an exception that the `except Exception` clause does not
catch and that propagates out of `main`. -/
inductive MainOutcome where
  | completed
  | uncaught (e : ErrKind)
deriving DecidableEq, Repr

/-- Embedding of the `while True` retry loop of `main` (lines 192-207).
Each iteration calls `run_carla_client(...)` afresh; on `return True` the
loop returns; on a caught exception it logs the error, sleeps 1 second and
retries. The list argument injects one optional fault per attempt, every
attempt after the list's end being fault-free (so the loop, unbounded in
the code, terminates after finitely many injected faults). -/
def main_loop : List (Option (FaultAt × ErrKind)) → MainOutcome × List MainEvent
  | [] => (.completed, [.attempt (run_carla_client 3 300 none).2])
  | f :: rest =>
    match (run_carla_client 3 300 f).1 with
    | .ok e =>
      if e then (.completed, [.attempt (run_carla_client 3 300 f).2])
      else ((main_loop rest).1, .attempt (run_carla_client 3 300 f).2 :: (main_loop rest).2)
    | .error e =>
      if isExceptionClass e then
        ((main_loop rest).1,
          .attempt (run_carla_client 3 300 f).2 :: .logError e :: .sleep 1 ::
            (main_loop rest).2)
      else (.uncaught e, [.attempt (run_carla_client 3 300 f).2])

/-- Process-level result of the program: normal exit, the clean
"Cancelled by user" exit of the `except KeyboardInterrupt` handler at
lines 212-215, or a crash from an exception no handler catches. -/
inductive ProgResult where
  | normal
  | cancelled
  | crashed (e : ErrKind)
deriving DecidableEq, Repr

/-- Embedding of the `__main__` block (lines 210-215): `main()` guarded by
`except KeyboardInterrupt`, which turns an uncaught termination request
into a clean exit; any other exception escaping `main` crashes the
process. -/
def main_program (plans : List (Option (FaultAt × ErrKind))) :
    ProgResult × List MainEvent :=
  match (main_loop plans).1 with
  | .completed => (.normal, (main_loop plans).2)
  | .uncaught .terminationRequested => (.cancelled, (main_loop plans).2)
  | .uncaught e => (.crashed e, (main_loop plans).2)

/-- Degenerate case of line 79: with zero start spots the chosen index is
0, whatever the random draw. -/
lemma player_start_zero (r : Nat) : player_start 0 r = 0 := by
  unfold player_start randint
  have h : max (0 : Int) (-1) = 0 := by decide
  norm_num [h, Nat.mod_one]

/-- Nonzero case of line 79: the chosen index is the random draw reduced
modulo the number of start spots. -/
lemma player_start_succ (m r : Nat) :
    player_start (m + 1) r = ((r % (m + 1) : Nat) : Int) := by
  unfold player_start randint
  have h1 : ((m + 1 : Nat) : Int) - 1 = (m : Int) := by push_cast; ring
  have h2 : max (0 : Int) (m : Int) = (m : Int) :=
    max_eq_right (Int.natCast_nonneg m)
  have h3 : ((m : Int) - 0 + 1).toNat = m + 1 := by omega
  rw [h1, h2, h3]
  norm_num

/-- The weather draw always lands in the enumerated set of line 49. -/
lemma choice_weather_mem (w : Nat) :
    choice [1, 3, 7, 8, 14] w ∈ ([1, 3, 7, 8, 14] : List Nat) := by
  have h : w % 5 = 0 ∨ w % 5 = 1 ∨ w % 5 = 2 ∨ w % 5 = 3 ∨ w % 5 = 4 := by omega
  rcases h with h | h | h | h | h <;> simp [choice, h]

/-- The last event of any trace of the shape produced by
`run_carla_client` is the `close` of the context manager. -/
lemma trace_close_last (t : List ClientEvent) :
    (ClientEvent.connect :: (t ++ [ClientEvent.close])).getLast? =
      some ClientEvent.close := by
  simpa using List.getLast?_append_cons (ClientEvent.connect :: t) ClientEvent.close []

/-- A fault that never matches a read or send of episode `ep` leaves the
frame loop fault-free: it completes with the strict read/write
alternation. -/
lemma framesRun_skip (fault : Option (FaultAt × ErrKind)) (ep : Nat)
    (h : ∀ f, faultHere fault (.atRead ep f) = none ∧
      faultHere fault (.atSend ep f) = none) :
    ∀ n f, framesRun fault ep n f = (.ok (), readWriteCycles n) := by
  intro n
  induction n with
  | zero => intro f; rfl
  | succ n ih =>
    intro f
    simp [framesRun, (h f).1, (h f).2, readWriteCycles, ih (f + 1)]

/-- A fault injected at a read of episode `ep`, frame `ff`, makes the frame
loop raise once the loop reaches that frame. -/
lemma framesRun_atRead_fires (ep ff : Nat) (e : ErrKind) :
    ∀ n f, f ≤ ff → ff < f + n →
      (framesRun (some (.atRead ep ff, e)) ep n f).1 = .error e := by
  intro n
  induction n with
  | zero => intro f h1 h2; omega
  | succ n ih =>
    intro f h1 h2
    by_cases hf : ff = f
    · subst hf
      simp [framesRun, faultHere]
    · have hne : FaultAt.atRead ep ff ≠ FaultAt.atRead ep f := by simp [hf]
      simp [framesRun, faultHere, hne]
      exact ih (f + 1) (by omega) (by omega)

/-- A fault injected at a send of episode `ep`, frame `ff`, makes the frame
loop raise once the loop reaches that frame. -/
lemma framesRun_atSend_fires (ep ff : Nat) (e : ErrKind) :
    ∀ n f, f ≤ ff → ff < f + n →
      (framesRun (some (.atSend ep ff, e)) ep n f).1 = .error e := by
  intro n
  induction n with
  | zero => intro f h1 h2; omega
  | succ n ih =>
    intro f h1 h2
    by_cases hf : ff = f
    · subst hf
      simp [framesRun, faultHere]
    · have hne : FaultAt.atSend ep ff ≠ FaultAt.atSend ep f := by simp [hf]
      simp [framesRun, faultHere, hne]
      exact ih (f + 1) (by omega) (by omega)

/-- A fault injected at the episode request of episode `i` makes the
episode loop raise once it reaches episode `i`. -/
lemma episodesRun_atRequest_fires (i : Nat) (e : ErrKind) (F : Nat) :
    ∀ n j, j ≤ i → i < j + n →
      (episodesRun F (some (.atRequest i, e)) n j).1 = .error e := by
  intro n
  induction n with
  | zero => intro j h1 h2; omega
  | succ n ih =>
    intro j h1 h2
    by_cases hj : i = j
    · subst hj
      simp [episodesRun, faultHere]
    · have hskip : framesRun (some (.atRequest i, e)) j F 0 =
          (.ok (), readWriteCycles F) :=
        framesRun_skip _ _ (fun f => by constructor <;> simp [faultHere]) F 0
      have hne : FaultAt.atRequest i ≠ FaultAt.atRequest j := by simp [hj]
      simp [episodesRun, faultHere, hne, hskip]
      exact ih (j + 1) (by omega) (by omega)

/-- A fault injected at a read of episode `i`, frame `ff < F`, makes the
episode loop raise once it reaches episode `i`. -/
lemma episodesRun_atRead_fires (i ff : Nat) (e : ErrKind) (F : Nat) (hff : ff < F) :
    ∀ n j, j ≤ i → i < j + n →
      (episodesRun F (some (.atRead i ff, e)) n j).1 = .error e := by
  intro n
  induction n with
  | zero => intro j h1 h2; omega
  | succ n ih =>
    intro j h1 h2
    by_cases hj : i = j
    · subst hj
      have hfr : (framesRun (some (.atRead i ff, e)) i F 0).1 = .error e :=
        framesRun_atRead_fires i ff e F 0 (Nat.zero_le _) (by omega)
      simp [episodesRun, faultHere, hfr]
    · have hskip : framesRun (some (.atRead i ff, e)) j F 0 =
          (.ok (), readWriteCycles F) :=
        framesRun_skip _ _ (fun f => by constructor <;> simp [faultHere, hj]) F 0
      simp [episodesRun, faultHere, hskip]
      exact ih (j + 1) (by omega) (by omega)

/-- A fault injected at a send of episode `i`, frame `ff < F`, makes the
episode loop raise once it reaches episode `i`. -/
lemma episodesRun_atSend_fires (i ff : Nat) (e : ErrKind) (F : Nat) (hff : ff < F) :
    ∀ n j, j ≤ i → i < j + n →
      (episodesRun F (some (.atSend i ff, e)) n j).1 = .error e := by
  intro n
  induction n with
  | zero => intro j h1 h2; omega
  | succ n ih =>
    intro j h1 h2
    by_cases hj : i = j
    · subst hj
      have hfr : (framesRun (some (.atSend i ff, e)) i F 0).1 = .error e :=
        framesRun_atSend_fires i ff e F 0 (Nat.zero_le _) (by omega)
      simp [episodesRun, faultHere, hfr]
    · have hskip : framesRun (some (.atSend i ff, e)) j F 0 =
          (.ok (), readWriteCycles F) :=
        framesRun_skip _ _ (fun f => by constructor <;> simp [faultHere, hj]) F 0
      simp [episodesRun, faultHere, hskip]
      exact ih (j + 1) (by omega) (by omega)

/-- Any fault whose location is reached by a 3 x 300 run makes
`run_carla_client` raise that error. -/
lemma run_carla_client_fires (loc : FaultAt) (e : ErrKind)
    (h : faultFires 3 300 loc = true) :
    (run_carla_client 3 300 (some (loc, e))).1 = .error e := by
  cases loc with
  | atRequest i =>
    have hi : i < 3 := by simpa [faultFires] using h
    have he := episodesRun_atRequest_fires i e 300 3 0 (Nat.zero_le _) (by omega)
    simp [run_carla_client, he, Except.map]
  | atRead i f =>
    have hi : i < 3 ∧ f < 300 := by simpa [faultFires] using h
    have he := episodesRun_atRead_fires i f e 300 hi.2 3 0 (Nat.zero_le _) (by omega)
    simp [run_carla_client, he, Except.map]
  | atSend i f =>
    have hi : i < 3 ∧ f < 300 := by simpa [faultFires] using h
    have he := episodesRun_atSend_fires i f e 300 hi.2 3 0 (Nat.zero_le _) (by omega)
    simp [run_carla_client, he, Except.map]

/-- One step of the retry loop on a caught exception: log, sleep 1, and
continue with the remaining attempts. -/
lemma main_loop_catch (loc : FaultAt) (e : ErrKind)
    (rest : List (Option (FaultAt × ErrKind)))
    (hf : faultFires 3 300 loc = true) (he : isExceptionClass e = true) :
    main_loop (some (loc, e) :: rest) =
      ((main_loop rest).1,
        .attempt (run_carla_client 3 300 (some (loc, e))).2 :: .logError e ::
          .sleep 1 :: (main_loop rest).2) := by
  have hr := run_carla_client_fires loc e hf
  simp [main_loop, hr, he]

/-- One step of the retry loop on an error the `except Exception` clause
does not catch: the loop stops and the error propagates out of `main`. -/
lemma main_loop_uncaught (loc : FaultAt) (e : ErrKind)
    (rest : List (Option (FaultAt × ErrKind)))
    (hf : faultFires 3 300 loc = true) (he : isExceptionClass e = false) :
    main_loop (some (loc, e) :: rest) =
      (.uncaught e, [.attempt (run_carla_client 3 300 (some (loc, e))).2]) := by
  have hr := run_carla_client_fires loc e hf
  simp [main_loop, hr, he]

/-- However many caught faults precede the first fault-free attempt, the
retry loop eventually completes. -/
lemma main_loop_replicate_completed (loc : FaultAt) (e : ErrKind)
    (hf : faultFires 3 300 loc = true) (he : isExceptionClass e = true) :
    ∀ k, (main_loop (List.replicate k (some (loc, e)))).1 = .completed := by
  intro k
  induction k with
  | zero => rfl
  | succ k ih =>
    rw [List.replicate_succ, main_loop_catch loc e _ hf he]
    exact ih

/-- Fault-free episode loop: every episode completes, and the trace is the
canonical sequence of negotiations and read/write cycles. -/
lemma episodesRun_none (F : Nat) :
    ∀ n i, episodesRun F none n i = (.ok (), episodeTraces F n) := by
  intro n
  induction n with
  | zero => intro i; rfl
  | succ n ih =>
    intro i
    simp [episodesRun, faultHere,
      framesRun_skip none i (fun f => ⟨rfl, rfl⟩) F 0, episodeTraces, ih (i + 1)]

/-- The fault-free 3 x 300 run returns `True`. -/
lemma run_ok_none : (run_carla_client 3 300 none).1 = .ok true := by
  simp [run_carla_client, episodesRun_none 300 3 0, Except.map]

/-- The fault-free 3 x 300 run's trace in closed form. -/
lemma run_trace_none :
    (run_carla_client 3 300 none).2 =
      .connect :: (episodeTraces 300 3 ++ [.close]) := by
  simp [run_carla_client, episodesRun_none 300 3 0]

/-- Read count of `n` read/write cycles. -/
lemma readWriteCycles_count_read (n : Nat) :
    (readWriteCycles n).count .readMeasurements = n := by
  induction n with
  | zero => rfl
  | succ n ih => simp [readWriteCycles, List.count_cons, ih]

/-- Send count of `n` read/write cycles. -/
lemma readWriteCycles_count_send (n : Nat) :
    (readWriteCycles n).count .sendControl = n := by
  induction n with
  | zero => rfl
  | succ n ih => simp [readWriteCycles, List.count_cons, ih]

/-- Read/write cycles contain no negotiation events. -/
lemma readWriteCycles_count_req (n : Nat) :
    (readWriteCycles n).count .requestNewEpisode = 0 := by
  induction n with
  | zero => rfl
  | succ n ih => simp [readWriteCycles, List.count_cons, ih]

/-- Read/write cycles contain no negotiation events. -/
lemma readWriteCycles_count_start (n : Nat) :
    (readWriteCycles n).count .startEpisode = 0 := by
  induction n with
  | zero => rfl
  | succ n ih => simp [readWriteCycles, List.count_cons, ih]

/-- Concatenating read/write cycles adds their lengths. -/
lemma readWriteCycles_append (m n : Nat) :
    readWriteCycles m ++ readWriteCycles n = readWriteCycles (m + n) := by
  induction m with
  | zero => simp [readWriteCycles]
  | succ m ih =>
    simp [readWriteCycles, ih, Nat.succ_add]

/-- Every event of a read/write cycle block is a frame operation. -/
lemma readWriteCycles_filter_frame (n : Nat) :
    (readWriteCycles n).filter isFrameOp = readWriteCycles n := by
  induction n with
  | zero => rfl
  | succ n ih => simp [readWriteCycles, List.filter_cons, isFrameOp, ih]

/-- No event of a read/write cycle block is a negotiation. -/
lemma readWriteCycles_filter_neg (n : Nat) :
    (readWriteCycles n).filter isNegotiation = [] := by
  induction n with
  | zero => rfl
  | succ n ih => simp [readWriteCycles, List.filter_cons, isNegotiation, ih]

/-- Request count of `n` fault-free episodes. -/
lemma episodeTraces_count_req (F n : Nat) :
    (episodeTraces F n).count .requestNewEpisode = n := by
  induction n with
  | zero => rfl
  | succ n ih =>
    simp [episodeTraces, List.count_cons, List.count_append,
      readWriteCycles_count_req, ih]

/-- Start count of `n` fault-free episodes. -/
lemma episodeTraces_count_start (F n : Nat) :
    (episodeTraces F n).count .startEpisode = n := by
  induction n with
  | zero => rfl
  | succ n ih =>
    simp [episodeTraces, List.count_cons, List.count_append,
      readWriteCycles_count_start, ih]

/-- Read count of `n` fault-free episodes of `F` frames: `n * F`. -/
lemma episodeTraces_count_read (F n : Nat) :
    (episodeTraces F n).count .readMeasurements = n * F := by
  induction n with
  | zero => simp [episodeTraces]
  | succ n ih =>
    simp [episodeTraces, List.count_cons, List.count_append,
      readWriteCycles_count_read, ih]
    ring

/-- Send count of `n` fault-free episodes of `F` frames: `n * F`. -/
lemma episodeTraces_count_send (F n : Nat) :
    (episodeTraces F n).count .sendControl = n * F := by
  induction n with
  | zero => simp [episodeTraces]
  | succ n ih =>
    simp [episodeTraces, List.count_cons, List.count_append,
      readWriteCycles_count_send, ih]
    ring

/-- The negotiation events of `n` fault-free episodes, in order. -/
lemma episodeTraces_filter_neg (F n : Nat) :
    (episodeTraces F n).filter isNegotiation = negotiationEvents n := by
  induction n with
  | zero => rfl
  | succ n ih =>
    simp [episodeTraces, List.filter_cons, List.filter_append, isNegotiation,
      readWriteCycles_filter_neg, negotiationEvents, ih]

/-- The frame operations of `n` fault-free episodes of `F` frames are
exactly `n * F` strictly alternating read/write cycles. -/
lemma episodeTraces_filter_frame (F n : Nat) :
    (episodeTraces F n).filter isFrameOp = readWriteCycles (n * F) := by
  induction n with
  | zero => simp [episodeTraces, readWriteCycles]
  | succ n ih =>
    simp [episodeTraces, List.filter_cons, List.filter_append, isFrameOp,
      readWriteCycles_filter_frame, ih, readWriteCycles_append]
    rw [show F + n * F = (n + 1) * F by ring]

/-- The fault-free 3 x 300 run performs exactly 3 episode requests. -/
lemma run_count_req :
    (run_carla_client 3 300 none).2.count .requestNewEpisode = 3 := by
  rw [run_trace_none]
  simp [List.count_cons, List.count_append, episodeTraces_count_req]

/-- C1: for the configured episode count E=3 and frame count F=300, a
fault-free execution of `run_carla_client` performs exactly 3 episode
negotiations (each a `request_new_episode` followed by a `start_episode`)
and exactly 900 frame cycles; reads and writes strictly alternate starting
with a read, so in every cycle `read_measurements` precedes
`send_control`; after the last episode the function returns `True`. -/
theorem run_carla_client_episode_frame_protocol :
    (run_carla_client 3 300 none).2.count .requestNewEpisode = 3 ∧
    (run_carla_client 3 300 none).2.count .startEpisode = 3 ∧
    (run_carla_client 3 300 none).2.filter isNegotiation =
      [.requestNewEpisode, .startEpisode, .requestNewEpisode, .startEpisode,
        .requestNewEpisode, .startEpisode] ∧
    (run_carla_client 3 300 none).2.count .readMeasurements = 900 ∧
    (run_carla_client 3 300 none).2.count .sendControl = 900 ∧
    (run_carla_client 3 300 none).2.filter isFrameOp = readWriteCycles 900 ∧
    (run_carla_client 3 300 none).1 = .ok true := by
  refine ⟨run_count_req, ?_, ?_, ?_, ?_, ?_, run_ok_none⟩ <;> rw [run_trace_none]
  · simp [List.count_cons, List.count_append, episodeTraces_count_start]
  · simp [List.filter_cons, List.filter_append, isNegotiation,
      episodeTraces_filter_neg]
    rfl
  · simp [List.count_cons, List.count_append, episodeTraces_count_read]
  · simp [List.count_cons, List.count_append, episodeTraces_count_send]
  · simp [List.filter_cons, List.filter_append, isFrameOp,
      episodeTraces_filter_frame]

/-- C2: for every scene, the start-spot selection of line 79 never raises
(it is total) and returns an index in `[0, max 0 (n - 1)]` where `n` is the
number of player start spots; with zero start spots the index is exactly
0. -/
theorem player_start_in_range (n r : Nat) :
    (0 ≤ player_start n r ∧ player_start n r ≤ max 0 ((n : Int) - 1)) ∧
    player_start 0 r = 0 := by
  refine ⟨?_, player_start_zero r⟩
  cases n with
  | zero =>
    rw [player_start_zero]
    exact ⟨le_refl 0, le_max_left 0 _⟩
  | succ m =>
    rw [player_start_succ]
    have hlt : r % (m + 1) < m + 1 := Nat.mod_lt _ (Nat.succ_pos m)
    have hc : ((m + 1 : Nat) : Int) - 1 = (m : Int) := by push_cast; ring
    constructor
    · exact Int.natCast_nonneg _
    · rw [hc]
      refine le_trans ?_ (le_max_right 0 (m : Int))
      exact_mod_cast Nat.le_of_lt_succ hlt

/-- C3: for every value of the injected random source in `[0, 1]`, the
manual policy sends steer in `[-1, 1]`, throttle exactly 0.3, and brake,
hand_brake and reverse all false. -/
theorem manual_control_spec (u : ℚ) (h0 : 0 ≤ u) (h1 : u ≤ 1) :
    (-1 ≤ (manual_control u).steer ∧ (manual_control u).steer ≤ 1) ∧
    (manual_control u).throttle = 0.3 ∧
    (manual_control u).brake = false ∧
    (manual_control u).hand_brake = false ∧
    (manual_control u).reverse = false := by
  refine ⟨⟨?_, ?_⟩, by norm_num [manual_control], rfl, rfl, rfl⟩ <;>
    simp [manual_control, uniform] <;> linarith

/-- Witness for C3, at the concrete random value 1/2. -/
theorem manual_control_spec_witness :
    ((0 : ℚ) ≤ 1/2 ∧ (1/2 : ℚ) ≤ 1) ∧
    ((-1 ≤ (manual_control (1/2)).steer ∧ (manual_control (1/2)).steer ≤ 1) ∧
      (manual_control (1/2)).throttle = 0.3 ∧
      (manual_control (1/2)).brake = false ∧
      (manual_control (1/2)).hand_brake = false ∧
      (manual_control (1/2)).reverse = false) :=
  ⟨⟨by norm_num, by norm_num⟩,
    manual_control_spec (1/2) (by norm_num) (by norm_num)⟩

/-- C4: for every input command and every value of the injected random
source in `[0, 1]`, the autopilot-relay policy sends the input command
unchanged in every field except steer, whose value is the input steer plus
a noise in `[-0.1, 0.1]`; no clamping is applied (with input steer 1 and
the maximal draw the sent steer is 1.1, outside `[-1, 1]`). -/
theorem autopilot_control_spec (c : ControlCommand) (u : ℚ)
    (h0 : 0 ≤ u) (h1 : u ≤ 1) :
    ((autopilot_control c u).throttle = c.throttle ∧
      (autopilot_control c u).brake = c.brake ∧
      (autopilot_control c u).hand_brake = c.hand_brake ∧
      (autopilot_control c u).reverse = c.reverse) ∧
    ((autopilot_control c u).steer = c.steer + uniform (-(1/10)) (1/10) u ∧
      -(0.1 : ℚ) ≤ uniform (-(1/10)) (1/10) u ∧
      uniform (-(1/10)) (1/10) u ≤ (0.1 : ℚ)) ∧
    (autopilot_control
      { steer := 1, throttle := 0.3, brake := false,
        hand_brake := false, reverse := false } 1).steer = (1.1 : ℚ) := by
  refine ⟨⟨rfl, rfl, rfl, rfl⟩, ⟨rfl, ?_, ?_⟩,
    by norm_num [autopilot_control, uniform]⟩ <;>
    simp [uniform] <;> linarith

/-- Witness for C4, at the concrete command with steer 1 and the maximal
random value 1. -/
theorem autopilot_control_spec_witness :
    ((0 : ℚ) ≤ 1 ∧ (1 : ℚ) ≤ 1) ∧
    (((autopilot_control
        { steer := 1, throttle := 0.3, brake := false,
          hand_brake := false, reverse := false } 1).throttle =
        (ControlCommand.mk 1 0.3 false false false).throttle ∧
      (autopilot_control
        { steer := 1, throttle := 0.3, brake := false,
          hand_brake := false, reverse := false } 1).brake =
        (ControlCommand.mk 1 0.3 false false false).brake ∧
      (autopilot_control
        { steer := 1, throttle := 0.3, brake := false,
          hand_brake := false, reverse := false } 1).hand_brake =
        (ControlCommand.mk 1 0.3 false false false).hand_brake ∧
      (autopilot_control
        { steer := 1, throttle := 0.3, brake := false,
          hand_brake := false, reverse := false } 1).reverse =
        (ControlCommand.mk 1 0.3 false false false).reverse) ∧
    ((autopilot_control
        { steer := 1, throttle := 0.3, brake := false,
          hand_brake := false, reverse := false } 1).steer =
        (ControlCommand.mk 1 0.3 false false false).steer +
          uniform (-(1/10)) (1/10) 1 ∧
      -(0.1 : ℚ) ≤ uniform (-(1/10)) (1/10) 1 ∧
      uniform (-(1/10)) (1/10) 1 ≤ (0.1 : ℚ)) ∧
    (autopilot_control
      { steer := 1, throttle := 0.3, brake := false,
        hand_brake := false, reverse := false } 1).steer = (1.1 : ℚ)) :=
  ⟨⟨by norm_num, le_refl 1⟩,
    autopilot_control_spec (ControlCommand.mk 1 0.3 false false false) 1
      (by norm_num) (le_refl 1)⟩

/-- C5: the per-frame display converts the player position from
centimeters to meters by dividing each coordinate by 100: location
(130, 0, 6500) cm displays as (1.3, 0.0, 65.0) m. -/
theorem print_player_measurements_conversion :
    player_pos_display ⟨130, 0, 6500⟩ = ((1.3 : ℚ), (0.0 : ℚ), (65.0 : ℚ)) := by
  norm_num [player_pos_display]

/-- C6: a `ConnectionError` surfacing anywhere inside a run is caught by
the orchestrator, which logs the error, sleeps the fixed backoff of 1 time
unit, and restarts the whole session by calling `run_carla_client` afresh
(the fault-free restart opens a new connection and performs all 3 episode
negotiations again, so no episode state is resumed); the retry repeats for
any number of consecutive faulty attempts and completes as soon as an
attempt succeeds. -/
theorem main_retries_and_restarts (loc : FaultAt)
    (rest : List (Option (FaultAt × ErrKind)))
    (h : faultFires 3 300 loc = true) :
    main_loop (some (loc, .connectionError) :: rest) =
      ((main_loop rest).1,
        .attempt (run_carla_client 3 300 (some (loc, .connectionError))).2 ::
          .logError .connectionError :: .sleep 1 :: (main_loop rest).2) ∧
    main_loop [] = (.completed, [.attempt (run_carla_client 3 300 none).2]) ∧
    (run_carla_client 3 300 none).2.head? = some .connect ∧
    (run_carla_client 3 300 none).2.count .requestNewEpisode = 3 ∧
    (∀ k, (main_loop (List.replicate k (some (loc, .connectionError)))).1 =
      .completed) := by
  exact ⟨main_loop_catch loc .connectionError rest h rfl, rfl, rfl,
    run_count_req, main_loop_replicate_completed loc .connectionError h rfl⟩

/-- Witness for C6, with the fault at the episode request of episode index
1 (the second episode) and no further injected faults. -/
theorem main_retries_and_restarts_witness :
    faultFires 3 300 (.atRequest 1) = true ∧
    (main_loop (some (.atRequest 1, .connectionError) :: []) =
      ((main_loop []).1,
        .attempt (run_carla_client 3 300 (some (.atRequest 1, .connectionError))).2 ::
          .logError .connectionError :: .sleep 1 :: (main_loop []).2) ∧
    main_loop [] = (.completed, [.attempt (run_carla_client 3 300 none).2]) ∧
    (run_carla_client 3 300 none).2.head? = some .connect ∧
    (run_carla_client 3 300 none).2.count .requestNewEpisode = 3 ∧
    (∀ k, (main_loop (List.replicate k (some (.atRequest 1, .connectionError)))).1 =
      .completed)) :=
  ⟨by decide, main_retries_and_restarts (.atRequest 1) [] (by decide)⟩

/-- C7 counterexample: a contract violation raised while requesting
episode 1 is caught by the `except Exception` clause of `main` like any
other error: it is logged, the backoff sleep runs, the session is retried,
and the process completes normally instead of aborting. -/
theorem contract_violation_caught_cex :
    (main_loop [some (.atRequest 1, .contractViolation)]).1 = .completed ∧
    (main_program [some (.atRequest 1, .contractViolation)]).1 = .normal ∧
    (main_loop [some (.atRequest 1, .contractViolation)]).2 =
      [.attempt (run_carla_client 3 300 (some (.atRequest 1, .contractViolation))).2,
        .logError .contractViolation, .sleep 1,
        .attempt (run_carla_client 3 300 none).2] := by
  have hc := main_loop_catch (.atRequest 1) .contractViolation [] (by decide) rfl
  have h0 : (main_loop ([] : List (Option (FaultAt × ErrKind)))).1 = .completed := rfl
  have h2 : (main_loop ([] : List (Option (FaultAt × ErrKind)))).2 =
      [.attempt (run_carla_client 3 300 none).2] := rfl
  refine ⟨?_, ?_, ?_⟩
  · rw [hc]
    exact h0
  · simp [main_program, hc, h0]
  · rw [hc, h2]

/-- C7 amended: a contract violation raised inside a session is caught by
the retry loop of `main` exactly like a connection or protocol error — the
orchestrator logs it, sleeps the backoff, and restarts the session — and
the process does not abort. -/
theorem contract_violation_retried (loc : FaultAt)
    (rest : List (Option (FaultAt × ErrKind)))
    (h : faultFires 3 300 loc = true) :
    main_loop (some (loc, .contractViolation) :: rest) =
      ((main_loop rest).1,
        .attempt (run_carla_client 3 300 (some (loc, .contractViolation))).2 ::
          .logError .contractViolation :: .sleep 1 :: (main_loop rest).2) :=
  main_loop_catch loc .contractViolation rest h rfl

/-- Witness for the amended C7, with the contract violation at the read of
frame 0 of episode 0. -/
theorem contract_violation_retried_witness :
    faultFires 3 300 (.atRead 0 0) = true ∧
    main_loop (some (.atRead 0 0, .contractViolation) :: []) =
      ((main_loop []).1,
        .attempt (run_carla_client 3 300 (some (.atRead 0 0, .contractViolation))).2 ::
          .logError .contractViolation :: .sleep 1 :: (main_loop []).2) :=
  ⟨by decide, contract_violation_retried (.atRead 0 0) [] (by decide)⟩

/-- C8: a termination request (KeyboardInterrupt) surfacing at any reached
point of a run is not routed into the retry path: the program performs no
logging, no backoff sleep and no further attempt, exits cleanly through the
`except KeyboardInterrupt` handler, and the connection is still released
(the trace of the sole attempt ends with `close`). -/
theorem termination_bypasses_retry (loc : FaultAt)
    (rest : List (Option (FaultAt × ErrKind)))
    (h : faultFires 3 300 loc = true) :
    main_program (some (loc, .terminationRequested) :: rest) =
      (.cancelled,
        [.attempt (run_carla_client 3 300 (some (loc, .terminationRequested))).2]) ∧
    (run_carla_client 3 300 (some (loc, .terminationRequested))).2.getLast? =
      some .close ∧
    MainEvent.sleep 1 ∉ (main_program (some (loc, .terminationRequested) :: rest)).2 ∧
    (∀ e, MainEvent.logError e ∉
      (main_program (some (loc, .terminationRequested) :: rest)).2) := by
  have hu := main_loop_uncaught loc .terminationRequested rest h rfl
  have hmp : main_program (some (loc, .terminationRequested) :: rest) =
      (.cancelled,
        [.attempt (run_carla_client 3 300 (some (loc, .terminationRequested))).2]) := by
    simp [main_program, hu]
  refine ⟨hmp, trace_close_last _, ?_, ?_⟩
  · rw [hmp]
    simp
  · intro e
    rw [hmp]
    simp

/-- Witness for C8, with the termination request at the send of the last
frame of the last episode. -/
theorem termination_bypasses_retry_witness :
    faultFires 3 300 (.atSend 2 299) = true ∧
    (main_program (some (.atSend 2 299, .terminationRequested) :: []) =
      (.cancelled,
        [.attempt (run_carla_client 3 300 (some (.atSend 2 299, .terminationRequested))).2]) ∧
    (run_carla_client 3 300 (some (.atSend 2 299, .terminationRequested))).2.getLast? =
      some .close ∧
    MainEvent.sleep 1 ∉
      (main_program (some (.atSend 2 299, .terminationRequested) :: [])).2 ∧
    (∀ e, MainEvent.logError e ∉
      (main_program (some (.atSend 2 299, .terminationRequested) :: [])).2)) :=
  ⟨by decide, termination_bypasses_retry (.atSend 2 299) [] (by decide)⟩

/-- C9: on every exit path of a session — normal completion or an
exception injected at any negotiation, read or send — the trace of
`run_carla_client` opens with `connect` and ends with the context
manager's `close`, so the connection acquired by `connect` is released
before the orchestrator proceeds. -/
theorem connection_scoped_release (E F : Nat)
    (fault : Option (FaultAt × ErrKind)) :
    (run_carla_client E F fault).2.head? = some .connect ∧
    (run_carla_client E F fault).2.getLast? = some .close :=
  ⟨rfl, trace_close_last _⟩

/-- C10: within a run a fresh settings object is built for each of the 3
episodes from that episode's own random draws; every such configuration
has synchronous mode true, 30 vehicles, 50 pedestrians, a weather
identifier in {1, 3, 7, 8, 14}, and the same two cameras (color 800x600
and depth 800x600, both at offset (30, 0, 130) cm), while different draws
can give different weather and seeds. -/
theorem episode_settings_per_episode (draws : Nat → Nat × Nat × Nat)
    (w sv sp : Nat) :
    run_episode_configs draws =
      [episode_settings (draws 0).1 (draws 0).2.1 (draws 0).2.2,
        episode_settings (draws 1).1 (draws 1).2.1 (draws 1).2.2,
        episode_settings (draws 2).1 (draws 2).2.1 (draws 2).2.2] ∧
    (episode_settings w sv sp).SynchronousMode = true ∧
    (episode_settings w sv sp).NumberOfVehicles = 30 ∧
    (episode_settings w sv sp).NumberOfPedestrians = 50 ∧
    (episode_settings w sv sp).WeatherId ∈ ([1, 3, 7, 8, 14] : List Nat) ∧
    (episode_settings w sv sp).cameras = [camera0, camera1] ∧
    camera0.name = "CameraRGB" ∧ camera0.post_processing = none ∧
    camera0.image_width = 800 ∧ camera0.image_height = 600 ∧
    (camera0.pos_x, camera0.pos_y, camera0.pos_z) = (30, 0, 130) ∧
    camera1.name = "CameraDepth" ∧ camera1.post_processing = some ("Depth") ∧
    camera1.image_width = 800 ∧ camera1.image_height = 600 ∧
    (camera1.pos_x, camera1.pos_y, camera1.pos_z) = (30, 0, 130) ∧
    (episode_settings 0 0 0).WeatherId ≠ (episode_settings 1 0 0).WeatherId ∧
    (episode_settings 0 0 0).SeedVehicles ≠ (episode_settings 0 1 0).SeedVehicles ∧
    (episode_settings 0 0 0).SeedPedestrians ≠
      (episode_settings 0 0 1).SeedPedestrians := by
  refine ⟨rfl, rfl, rfl, rfl, choice_weather_mem w, rfl, rfl, rfl, rfl, rfl,
    rfl, rfl, rfl, rfl, rfl, rfl, by decide, by decide, by decide⟩
